import Mathlib

/-!
Shallow embedding of `commoncode/command.py` (external-command execution
helpers): the PATH-like variable merger `update_path_var`, the environment
builder `get_env`, the scoped working-directory switch `pushd`, the process
runner `execute2` and the shared-library loader `load_shared_library`,
together with theorems checking the specification's claims about them.

Python strings are modelled as `List Char`; Python `bytes` as `List Nat`
(byte values); Python `None` via `Option`; the filesystem as the list of
existing paths; OS effects (chdir, process spawn) by explicit state passing
plus an effect trace.
-/

namespace Commoncode

/-- Python `str`, modelled as a list of characters. -/
abbrev Str := List Char

/-- Python `bytes`, modelled as a list of byte values. -/
abbrev Bytes := List Nat

/-- POSIX value of `os.pathsep`. -/
def pathsep : Char := ':'

/-- Python truthiness of a string: `''` is falsy. -/
def truthy (s : Str) : Bool := !s.isEmpty

/-- Python truthiness of an optional string: `None` and `''` are falsy. -/
def truthyOpt (s : Option Str) : Bool :=
  match s with
  | none => false
  | some x => truthy x

/--
Function `update_path_var(existing_path_var, new_path)` from `command.py`:
return an updated value for the `existing_path_var` PATH-like environment
variable value by adding `new_path` to the front of that variable if
`new_path` is not already part of it.  `os.fsdecode` on values that are
already `str` is the identity and is elided.
-/
def update_path_var (existing_path_var : Option Str) (new_path : Str) : Option Str :=
  -- `if not new_path: return existing_path_var`
  if new_path = [] then existing_path_var
  else
    -- `existing_path_var = existing_path_var or ''`
    let existing := existing_path_var.getD []
    -- `path_elements = existing_path_var.split(os.pathsep)`
    let path_elements := existing.splitOn pathsep
    -- `if not path_elements:` (dead in Python: split never returns [])
    if path_elements = [] then some new_path
    -- `elif new_path not in path_elements:` prepend and rejoin
    else if new_path ∉ path_elements then
      some (List.intercalate [pathsep] (new_path :: path_elements))
    -- `else:` new path already present, change nothing
    else some existing

/-- Splitting never returns the empty list of segments. -/
lemma splitOn_ne_nil (s : Str) : s.splitOn pathsep ≠ [] :=
  List.splitOnP_ne_nil _ s

/-- Joining a cons with a nonempty tail prepends the head and one
separator. -/
lemma intercalate_cons_ne_nil (sep a : Str) (l : List Str) (h : l ≠ []) :
    List.intercalate sep (a :: l) = a ++ sep ++ List.intercalate sep l := by
  cases l with
  | nil => exact absurd rfl h
  | cons b t => simp [List.intercalate]

/-- When `new_path` is nonempty, `update_path_var` always produces a value. -/
lemma update_path_var_isSome (ex : Option Str) (np : Str) (h : np ≠ []) :
    ∃ s, update_path_var ex np = some s := by
  unfold update_path_var
  simp only [if_neg h]
  split
  · exact ⟨_, rfl⟩
  · split
    · exact ⟨_, rfl⟩
    · exact ⟨_, rfl⟩

/-- C9: a segment already present leaves the variable unchanged. -/
theorem update_path_var_mem_eq (P S : Str)
    (hmem : S ∈ P.splitOn pathsep) :
    update_path_var (some P) S = some P := by
  unfold update_path_var
  by_cases hS : S = []
  · simp [hS]
  · simp only [if_neg hS, Option.getD_some]
    rw [if_neg (splitOn_ne_nil P), if_neg (by simpa using hmem)]

/-- C8: a nonempty segment not present
in `P` is prepended, followed by one separator and the original `P`. -/
theorem update_path_var_prepend (P S : Str) (hS : S ≠ [])
    (hmem : S ∉ P.splitOn pathsep) :
    update_path_var (some P) S = some (S ++ pathsep :: P) := by
  unfold update_path_var
  simp only [if_neg hS, Option.getD_some]
  rw [if_neg (splitOn_ne_nil P), if_pos (by simpa using hmem)]
  rw [intercalate_cons_ne_nil _ _ _ (splitOn_ne_nil P)]
  rw [List.intercalate_splitOn]
  simp

/-- C8 witness at concrete input. -/
theorem update_path_var_prepend_witness :
    ("c".toList ≠ [] ∧ "c".toList ∉ ("a:b".toList).splitOn pathsep) ∧
    update_path_var (some ("a:b".toList)) ("c".toList)
      = some ("c".toList ++ pathsep :: "a:b".toList) :=
  ⟨⟨by decide, by decide⟩,
    update_path_var_prepend ("a:b".toList) ("c".toList) (by decide) (by decide)⟩

/-- C9 witness at concrete input. -/
theorem update_path_var_mem_eq_witness :
    ("b".toList ∈ ("a:b".toList).splitOn pathsep) ∧
    update_path_var (some ("a:b".toList)) ("b".toList) = some ("a:b".toList) :=
  ⟨by decide, update_path_var_mem_eq ("a:b".toList) ("b".toList) (by decide)⟩

/-- C3: on an absent (None or empty) existing variable the code returns the
new path with a trailing separator, because `''.split(':') == ['']`, so the
`if not path_elements` branch that would return just the new path is
unreachable.  Evaluation at the failing input. -/
theorem update_path_var_absent_trailing_sep :
    update_path_var none ("/lib".toList) = some ("/lib:".toList) ∧
    update_path_var (some []) ("/lib".toList) = some ("/lib:".toList) ∧
    ("/lib:".toList : Str) ≠ "/lib".toList := by
  refine ⟨by decide, by decide, by decide⟩

/-! ### Python dicts and the environment builder `get_env` -/

/-- A Python `dict` of environment variables: insertion-ordered association
list with unique keys (uniqueness is maintained by `dictSet`). -/
abbrev Dict := List (Str × Str)

/-- Dict lookup `d[k]`, returning `None` when missing. -/
def dictGet : Dict → Str → Option Str
  | [], _ => none
  | (k', v) :: rest, k => if k' = k then some v else dictGet rest k

/-- Dict assignment `d[k] = v` on one key: replace in place or append. -/
def dictSet : Dict → Str → Str → Dict
  | [], k, v => [(k, v)]
  | (k', v') :: rest, k, v =>
      if k' = k then (k, v) :: rest else (k', v') :: dictSet rest k v

/-- Dict merge `d.update(other)`: set every key of `other` in order. -/
def dict_update (d other : Dict) : Dict :=
  other.foldl (fun acc kv => dictSet acc kv.1 kv.2) d

/-- Python truthiness of an optional dict: `None` and `{}` are falsy. -/
def truthyDict (d : Option Dict) : Bool :=
  match d with
  | none => false
  | some x => !x.isEmpty

/-- Name of the `PATH` variable (module constant `PATH_ENV_VAR`). -/
def PATH_ENV_VAR : Str := "PATH".toList

/-- Name of the `LD_LIBRARY_PATH` variable (module constant). -/
def LD_LIBRARY_PATH : Str := "LD_LIBRARY_PATH".toList

/-- Name of the `DYLD_LIBRARY_PATH` variable (module constant). -/
def DYLD_LIBRARY_PATH : Str := "DYLD_LIBRARY_PATH".toList

/-- Modelled from the spec: `text.as_unicode` from `commoncode.text` is not
under `src/`; per the spec all keys and values are "normalized to a canonical
text representation", which on already-decoded text is the identity. -/
def as_unicode (s : Str) : Str := s

/--
Function `get_env(base_vars, lib_dir)` from `command.py`, with the ambient state made
explicit: `environ` is `os.environ` and `on_posix` the platform flag.
Returns a dictionary of environment variables for command execution with
appropriate LD paths layered over `base_vars`.
-/
def get_env (base_vars : Option Dict) (lib_dir : Option Str)
    (environ : Dict) (on_posix : Bool) : Dict :=
  -- `env_vars = {}`; `if base_vars: env_vars.update(base_vars)`
  let env_vars : Dict := []
  let env_vars := if truthyDict base_vars then dict_update env_vars (base_vars.getD []) else env_vars
  -- `if lib_dir and on_posix:` add the two LD variables
  let env_vars :=
    if truthyOpt lib_dir && on_posix then
      -- `new_path = '%(lib_dir)s' % locals()` is just `lib_dir`
      let new_path := lib_dir.getD []
      let ld_lib_path := dictGet environ LD_LIBRARY_PATH
      let env_vars := dictSet env_vars LD_LIBRARY_PATH
        ((update_path_var ld_lib_path new_path).getD [])
      let dyld_lib_path := dictGet environ DYLD_LIBRARY_PATH
      dictSet env_vars DYLD_LIBRARY_PATH
        ((update_path_var dyld_lib_path new_path).getD [])
    else env_vars
  -- `{as_unicode(k): as_unicode(v) for k, v in env_vars.items()}`
  env_vars.map (fun kv => (as_unicode kv.1, as_unicode kv.2))

lemma dictGet_dictSet_same (d : Dict) (k v : Str) :
    dictGet (dictSet d k v) k = some v := by
  induction d with
  | nil => simp [dictSet, dictGet]
  | cons hd rest ih =>
      obtain ⟨k', v'⟩ := hd
      by_cases h : k' = k
      · simp [dictSet, dictGet, h]
      · simp [dictSet, dictGet, h, ih]

lemma dictGet_dictSet_other (d : Dict) (k v j : Str) (h : k ≠ j) :
    dictGet (dictSet d k v) j = dictGet d j := by
  induction d with
  | nil => simp [dictSet, dictGet, h]
  | cons hd rest ih =>
      obtain ⟨k', v'⟩ := hd
      by_cases hk : k' = k
      · have hkj : ¬ k' = j := fun hh => h (hk.symm.trans hh)
        simp only [dictSet, if_pos hk, dictGet, if_neg h, if_neg hkj]
      · by_cases hj : k' = j
        · simp only [dictSet, if_neg hk, dictGet, if_pos hj]
        · simp only [dictSet, if_neg hk, dictGet, if_neg hj, ih]

lemma dictGet_eq_none_of_not_mem (d : Dict) (j : Str)
    (h : j ∉ d.map Prod.fst) : dictGet d j = none := by
  induction d with
  | nil => rfl
  | cons hd rest ih =>
      obtain ⟨k', v'⟩ := hd
      simp only [List.map_cons, List.mem_cons] at h
      push_neg at h
      have hkj : ¬ k' = j := fun hh => h.1 hh.symm
      simp [dictGet, hkj, ih h.2]

lemma dictGet_dict_update (other : Dict) (d : Dict) (j : Str)
    (hnd : (other.map Prod.fst).Nodup) :
    dictGet (dict_update d other) j = (dictGet other j).or (dictGet d j) := by
  induction other generalizing d with
  | nil => simp [dict_update, dictGet]
  | cons hd rest ih =>
      obtain ⟨k, v⟩ := hd
      simp only [List.map_cons, List.nodup_cons] at hnd
      have hstep : dict_update d ((k, v) :: rest) = dict_update (dictSet d k v) rest := rfl
      rw [hstep, ih _ hnd.2]
      by_cases h : k = j
      · subst h
        rw [dictGet_eq_none_of_not_mem rest k hnd.1]
        simp [dictGet, dictGet_dictSet_same]
      · simp [dictGet, h, dictGet_dictSet_other d k v j h]

/-- The normalization comprehension is the identity on our text model. -/
lemma dictGet_map_as_unicode (d : Dict) (j : Str) :
    dictGet (d.map (fun kv => (as_unicode kv.1, as_unicode kv.2))) j = dictGet d j := by
  simp [as_unicode]

/-- C6: on POSIX with a nonempty library directory, `get_env` keeps every
unrelated key of the base map and maps the two library-search-path keys to
the merge of the process-level value with the library directory, overwriting
whatever the base map had for those keys. -/
theorem get_env_preserves_base_and_sets_ld (base environ : Dict) (l K V : Str)
    (hl : l ≠ []) (hnd : (base.map Prod.fst).Nodup)
    (hK1 : K ≠ LD_LIBRARY_PATH) (hK2 : K ≠ DYLD_LIBRARY_PATH)
    (hKV : dictGet base K = some V) :
    dictGet (get_env (some base) (some l) environ true) K = some V ∧
    dictGet (get_env (some base) (some l) environ true) LD_LIBRARY_PATH
      = update_path_var (dictGet environ LD_LIBRARY_PATH) l ∧
    dictGet (get_env (some base) (some l) environ true) DYLD_LIBRARY_PATH
      = update_path_var (dictGet environ DYLD_LIBRARY_PATH) l := by
  have hbase : base ≠ [] := by
    intro hb
    rw [hb] at hKV
    exact Option.noConfusion hKV
  have htb : truthyDict (some base) = true := by
    simp [truthyDict, List.isEmpty_iff, hbase]
  have htl : (truthyOpt (some l) && true) = true := by
    simp [truthyOpt, truthy, List.isEmpty_iff, hl]
  have hLDne : LD_LIBRARY_PATH ≠ DYLD_LIBRARY_PATH := by decide
  unfold get_env
  simp only [htb, htl, if_true, dictGet_map_as_unicode, Option.getD_some]
  refine ⟨?_, ?_, ?_⟩
  · rw [dictGet_dictSet_other _ _ _ _ (fun h => hK2 h.symm),
      dictGet_dictSet_other _ _ _ _ (fun h => hK1 h.symm),
      dictGet_dict_update base [] K hnd, hKV]
    rfl
  · rw [dictGet_dictSet_other _ _ _ _ (fun h => hLDne h.symm),
      dictGet_dictSet_same]
    obtain ⟨s, hs⟩ := update_path_var_isSome (dictGet environ LD_LIBRARY_PATH) l hl
    rw [hs]
    rfl
  · rw [dictGet_dictSet_same]
    obtain ⟨s, hs⟩ := update_path_var_isSome (dictGet environ DYLD_LIBRARY_PATH) l hl
    rw [hs]
    rfl

/-- C6 witness at concrete input. -/
theorem get_env_preserves_base_and_sets_ld_witness :
    dictGet (get_env (some [("K".toList, "V".toList)]) (some ("/lib".toList))
        [(LD_LIBRARY_PATH, "/old".toList)] true) ("K".toList) = some ("V".toList) ∧
    dictGet (get_env (some [("K".toList, "V".toList)]) (some ("/lib".toList))
        [(LD_LIBRARY_PATH, "/old".toList)] true) LD_LIBRARY_PATH
      = update_path_var (dictGet [(LD_LIBRARY_PATH, "/old".toList)] LD_LIBRARY_PATH) ("/lib".toList) ∧
    dictGet (get_env (some [("K".toList, "V".toList)]) (some ("/lib".toList))
        [(LD_LIBRARY_PATH, "/old".toList)] true) DYLD_LIBRARY_PATH
      = update_path_var (dictGet [(LD_LIBRARY_PATH, "/old".toList)] DYLD_LIBRARY_PATH) ("/lib".toList) :=
  get_env_preserves_base_and_sets_ld [("K".toList, "V".toList)]
    [(LD_LIBRARY_PATH, "/old".toList)] ("/lib".toList) ("K".toList) ("V".toList)
    (by decide) (by decide) (by decide) (by decide) (by decide)

/-! ### Filesystem, `os.chdir` and the scoped directory switch `pushd` -/

/-- Existence check `os.path.exists`: the filesystem is modelled as the list of existing
paths. -/
def path_exists (fs : List Str) (p : Str) : Bool := decide (p ∈ fs)

/-- Directory change `os.chdir(p)`: succeed and move to `p` when it exists, raise
`FileNotFoundError` otherwise (the working directory is then unchanged). -/
def chdir (fs : List Str) (p : Str) : Except Str Str :=
  if path_exists fs p then .ok p else .error ("FileNotFoundError: ".toList ++ p)

/-- Outcome of the block wrapped by a context manager: a normal fall-through
value, an early `return` carrying a value, or a raised error. -/
inductive Outcome (α : Type) where
  | normal (v : α)
  | earlyReturn (v : α)
  | raised (e : Str)
deriving DecidableEq

/--
Context manager `pushd(path)` from `command.py`, as a higher-order function over the
wrapped block.  `cwd0` is the process working directory when the context
manager is entered (`os.getcwd()`); the block receives the working
directory after the switch (the generator yields `os.getcwd()`) and returns
its outcome together with the working directory it leaves behind.  The
`finally` clause restores the original working directory on every exit
path; if that restoring `chdir` itself fails, its error replaces the
block's outcome, as in Python.
-/
def pushd {α : Type} (fs : List Str) (cwd0 : Str) (target : Option Str)
    (block : Str → Outcome α × Str) : Outcome α × Str :=
  -- `original_cwd = os.getcwd()`
  let original_cwd := cwd0
  -- `if not path: path = original_cwd`
  let tgt := if truthyOpt target then target.getD [] else original_cwd
  match chdir fs tgt with
  | .error e =>
      -- `os.chdir(path)` raised inside `try`; run `finally`, then propagate
      match chdir fs original_cwd with
      | .ok c => (.raised e, c)
      | .error e2 => (.raised e2, cwd0)
  | .ok c1 =>
      let r := block c1
      -- `finally: os.chdir(original_cwd)`
      match chdir fs original_cwd with
      | .ok c3 => (r.1, c3)
      | .error e2 => (.raised e2, r.2)

/-- C1: whenever the original working directory exists, the working
directory after `pushd` equals the working directory recorded before the
call, for every target (absent, empty, existing or nonexistent) and every
outcome of the wrapped block — in particular the restoration is already
reflected in the state paired with a raised outcome, i.e. it happens before
the error propagates. -/
theorem pushd_restores_cwd {α : Type} (fs : List Str) (cwd0 : Str)
    (target : Option Str) (block : Str → Outcome α × Str)
    (h : path_exists fs cwd0 = true) :
    (pushd fs cwd0 target block).2 = cwd0 := by
  have hres : chdir fs cwd0 = .ok cwd0 := by
    simp [chdir, h]
  unfold pushd
  cases htgt : chdir fs (if truthyOpt target then target.getD [] else cwd0) with
  | error e => simp [htgt, hres]
  | ok c1 => simp [htgt, hres]

/-- C1 witness at concrete input: a raising block around a switch to an
existing directory. -/
theorem pushd_restores_cwd_witness :
    path_exists ["/a".toList, "/b".toList] ("/a".toList) = true ∧
    (pushd ["/a".toList, "/b".toList] ("/a".toList) (some ("/b".toList))
      (fun c => ((Outcome.raised ("boom".toList) : Outcome Unit), c))).2 = "/a".toList :=
  ⟨by decide,
    pushd_restores_cwd ["/a".toList, "/b".toList] ("/a".toList) (some ("/b".toList))
      (fun c => ((Outcome.raised ("boom".toList) : Outcome Unit), c)) (by decide)⟩

/-! ### Shared library loading -/

/-- A loaded `ctypes.CDLL` object; `name` models its `_name` attribute. -/
structure SharedLib where
  name : Str
deriving DecidableEq

/-- Message of the `ImportError` raised when `dll_path` is absent or does
not exist. -/
def ImportErrorNoDll : Str := "ImportError: shared library dll_path does not exists".toList

/-- Message of the `ImportError` raised when `lib_dir` is given but does not
exist. -/
def ImportErrorNoLibDir : Str := "ImportError: shared library lib_dir does not exists".toList

/-- Message of the `ImportError` raised when the loaded handle has no
name. -/
def ImportErrorBadHandle : Str := "ImportError: failed to load shared library with ctypes".toList

/--
Function `load_shared_library(dll_path, lib_dir)` from `command.py`.  The OS-level
dynamic loader `ctypes.CDLL` is an oracle `cdll` taking the current working
directory (it may resolve co-located dependencies relative to it — the
point of the `pushd` wrapper) and the library path.  `os.fsdecode` on a
`str` is the identity and is elided.  An `OSError` from the loader is
re-raised enriched with diagnostics.
-/
def load_shared_library (fs : List Str) (procCwd : Str)
    (dll_path : Option Str) (lib_dir : Option Str)
    (cdll : Str → Str → Except Str SharedLib) : Except Str SharedLib :=
  -- `if not dll_path or not path.exists(dll_path): raise ImportError(...)`
  if !truthyOpt dll_path || !path_exists fs (dll_path.getD []) then
    .error ImportErrorNoDll
  -- `if lib_dir and not path.exists(lib_dir): raise ImportError(...)`
  else if truthyOpt lib_dir && !path_exists fs (lib_dir.getD []) then
    .error ImportErrorNoLibDir
  else
    -- `with pushd(lib_dir): lib = ctypes.CDLL(dll_path)`
    let r := pushd fs procCwd lib_dir (fun cwdIn =>
      match cdll cwdIn (dll_path.getD []) with
      | .ok lib => (Outcome.normal lib, cwdIn)
      | .error e => (Outcome.raised e, cwdIn))
    match r.1 with
    -- `except OSError as e: ... raise e` (args enriched with diagnostics)
    | .raised e => .error ("OSError: ".toList ++ e)
    -- `if lib and lib._name: return lib` else `raise ImportError(...)`
    | .normal lib => if truthy lib.name then .ok lib else .error ImportErrorBadHandle
    | .earlyReturn lib => .ok lib

/-- C5: when the library path is absent or nonexistent, or an auxiliary
library directory is given but nonexistent, the loader fails with one of the
two validation `ImportError`s — for every behaviour of the OS-level loader
oracle, i.e. before any OS-level dynamic-load call matters. -/
theorem load_shared_library_validates_first (fs : List Str) (procCwd : Str)
    (dll_path lib_dir : Option Str) (cdll : Str → Str → Except Str SharedLib)
    (h : (truthyOpt dll_path = false ∨ path_exists fs (dll_path.getD []) = false)
       ∨ (truthyOpt lib_dir = true ∧ path_exists fs (lib_dir.getD []) = false)) :
    load_shared_library fs procCwd dll_path lib_dir cdll = .error ImportErrorNoDll ∨
    load_shared_library fs procCwd dll_path lib_dir cdll = .error ImportErrorNoLibDir := by
  unfold load_shared_library
  by_cases h1 : (!truthyOpt dll_path || !path_exists fs (dll_path.getD [])) = true
  · left
    simp [h1]
  · right
    have h2 : (truthyOpt lib_dir && !path_exists fs (lib_dir.getD [])) = true := by
      rcases h with h | ⟨ha, hb⟩
      · exfalso
        apply h1
        rcases h with h | h <;> simp [h]
      · simp [ha, hb]
    simp [h1, h2]

/-- C5 witness at concrete input: a nonexistent library path, with an oracle
that would happily load anything. -/
theorem load_shared_library_validates_first_witness :
    ((truthyOpt (some ("/no/such.so".toList)) = false
        ∨ path_exists [] ((some ("/no/such.so".toList)).getD []) = false)
      ∨ (truthyOpt (none : Option Str) = true ∧ path_exists [] (([] : Str)) = false)) ∧
    (load_shared_library [] ("/".toList) (some ("/no/such.so".toList)) none
        (fun _ p => .ok ⟨p⟩) = .error ImportErrorNoDll ∨
     load_shared_library [] ("/".toList) (some ("/no/such.so".toList)) none
        (fun _ p => .ok ⟨p⟩) = .error ImportErrorNoLibDir) :=
  ⟨Or.inl (Or.inr (by decide)),
    load_shared_library_validates_first [] ("/".toList) (some ("/no/such.so".toList)) none
      (fun _ p => .ok ⟨p⟩) (Or.inl (Or.inr (by decide)))⟩

/-! ### The process runner `execute2` -/

/-- ASCII whitespace bytes stripped by Python's `bytes.strip()`:
space, tab, newline, carriage return, vertical tab, form feed. -/
def isPySpace (b : Nat) : Bool :=
  b == 32 || b == 9 || b == 10 || b == 13 || b == 11 || b == 12

/-- Python `bytes.strip()` with no argument: remove leading AND trailing
ASCII whitespace. -/
def pyStrip (bs : Bytes) : Bytes :=
  ((bs.dropWhile isPySpace).reverse.dropWhile isPySpace).reverse

/-- Modelled from the spec: `text.toascii` from `commoncode.text` is not
under `src/`; per the spec it decodes bytes into an ASCII-safe text form
where non-ASCII bytes are escaped or replaced and a decoding error is never
raised: ASCII bytes are kept, others replaced. -/
def toascii (bs : Bytes) : Str :=
  bs.map (fun b => if b < 128 then Char.ofNat b else '?')

/-- A spawned process after `proc.communicate()` returned: its exit code and
the bytes its run left in the two backing files. -/
structure Proc where
  returncode : Int
  stdoutBytes : Bytes
  stderrBytes : Bytes
deriving DecidableEq

/-- The arguments `execute2` hands to `subprocess.Popen` (the observable
part: command line, working directory, environment, shell flag). -/
structure PopenCall where
  argv : List Str
  cwd : Str
  env : Option Dict
  shell : Bool
deriving DecidableEq

/-- OS-visible effects of one `execute2` run, in order. -/
inductive Effect where
  | mkTempDir
  | openFile (p : Str)
  | popenCall (c : PopenCall)
  | closeCall (hadProc : Bool)
deriving DecidableEq

/-- Message of the `AssertionError` from `assert cmd_loc`. -/
def AssertionErrorMsg : Str := "AssertionError: cmd_loc".toList

/--
Function `execute2(cmd_loc, args, lib_dir, cwd, env, to_files)` from `command.py`,
with the ambient state explicit: `fs` the filesystem, `procCwd` the process
working directory, `environ` = `os.environ`, the two platform flags,
`curr_dir` the module-level root directory constant, `tmp_dir` the fresh
directory from the `get_temp_dir` collaborator, and `spawn` the
`Popen`+`communicate` oracle (an `OSError` such as `FileNotFoundError`
from a nonexistent executable is its `.error` case).  Returns the Python
return value (or the propagated error) together with the trace of OS
effects.  The `with pushd(lib_dir):` context manager is inlined; the
`try/finally` has no `except` clause, so errors propagate after
`close(proc)` runs (`close` itself swallows all errors).
-/
def execute2 (fs : List Str) (procCwd : Str) (environ : Dict)
    (on_posix on_windows : Bool) (curr_dir tmp_dir : Str)
    (spawn : PopenCall → Except Str Proc)
    (cmd_loc : Option Str) (args : Option (List Str)) (lib_dir : Option Str)
    (cwd : Option Str) (env : Option Dict) (to_files : Bool) :
    Except Str (Int × Str × Str) × List Effect :=
  -- `assert cmd_loc`
  if !truthyOpt cmd_loc then (.error AssertionErrorMsg, [])
  else
    -- `full_cmd = [cmd_loc] + (args or [])`
    let full_cmd := cmd_loc.getD [] :: args.getD []
    -- `env = get_env(env, lib_dir) or None`
    let env2 :=
      let built := get_env env lib_dir environ on_posix
      if built = [] then none else some built
    -- `cwd = cwd or curr_dir`
    let cwd2 := if truthyOpt cwd then cwd.getD [] else curr_dir
    -- `tmp_dir = get_temp_dir(prefix='cmd-')`; `sop`/`sep` inside it
    let sop := tmp_dir ++ "/stdout".toList
    let sep := tmp_dir ++ "/stderr".toList
    -- `shell = True if on_windows else False`
    let shell := on_windows
    let preT : List Effect := [.mkTempDir, .openFile sop, .openFile sep]
    -- `try:` ... `with pushd(lib_dir):` (inlined context manager)
    let original_cwd := procCwd
    let target := if truthyOpt lib_dir then lib_dir.getD [] else original_cwd
    match chdir fs target with
    | .error e =>
        -- chdir raised before Popen: `finally: close(proc)` with proc None
        (.error e, preT ++ [.closeCall false])
    | .ok _cwdIn =>
        let call : PopenCall := ⟨full_cmd, cwd2, env2, shell⟩
        match spawn call with
        | .error e =>
            -- Popen raised; pushd restores the cwd, close(None) runs,
            -- and the error propagates (there is no except clause)
            let t := preT ++ [.popenCall call, .closeCall false]
            match chdir fs original_cwd with
            | .ok _ => (.error e, t)
            | .error e2 => (.error e2, t)
        | .ok proc =>
            -- `rc = proc.returncode if proc else 0` with proc present
            let rc := proc.returncode
            let t := preT ++ [.popenCall call, .closeCall true]
            match chdir fs original_cwd with
            | .error e2 => (.error e2, t)
            | .ok _ =>
                if !to_files then
                  -- read back both files, strip, decode to ASCII
                  (.ok (rc, toascii (pyStrip proc.stdoutBytes),
                        toascii (pyStrip proc.stderrBytes)), t)
                else
                  (.ok (rc, sop, sep), t)

/-- Environments of the `Popen` calls recorded in a trace. -/
def popenEnvs (t : List Effect) : List (Option Dict) :=
  t.filterMap (fun e => match e with | .popenCall c => some c.env | _ => none)

/-- C7: with a falsy executable path the runner fails at once with the
assertion error and performs no effect at all — no temp dir, no output
files, no spawn — whatever the environment, oracle and other arguments. -/
theorem execute2_asserts_cmd_loc (fs : List Str) (procCwd : Str)
    (environ : Dict) (on_posix on_windows : Bool) (curr_dir tmp_dir : Str)
    (spawn : PopenCall → Except Str Proc) (cmd_loc : Option Str)
    (args : Option (List Str)) (lib_dir cwd : Option Str) (env : Option Dict)
    (to_files : Bool) (hc : truthyOpt cmd_loc = false) :
    execute2 fs procCwd environ on_posix on_windows curr_dir tmp_dir spawn
      cmd_loc args lib_dir cwd env to_files = (.error AssertionErrorMsg, []) := by
  unfold execute2
  simp [hc]

/-- C7 witness at concrete input. -/
theorem execute2_asserts_cmd_loc_witness :
    truthyOpt none = false ∧
    execute2 [] [] [] true false [] [] (fun _ => .error []) none none none none
      none false = (.error AssertionErrorMsg, []) :=
  ⟨rfl, execute2_asserts_cmd_loc [] [] [] true false [] [] (fun _ => .error [])
    none none none none none false rfl⟩

/-- With no base map and no POSIX library directory, `get_env` builds the
empty dict. -/
lemma get_env_none_empty (lib_dir : Option Str) (environ : Dict)
    (on_posix : Bool) (h : (truthyOpt lib_dir && on_posix) = false) :
    get_env none lib_dir environ on_posix = [] := by
  unfold get_env
  simp [truthyDict, h]

/-- C10: when the caller supplies no base environment map and the builder
adds no library-search-path variables (no library directory, or a non-POSIX
platform), the single `Popen` call receives `env = None` — the empty built
map is coerced to absent, so the child inherits the OS environment. -/
theorem execute2_passes_none_env (fs : List Str) (procCwd : Str)
    (environ : Dict) (on_posix on_windows : Bool) (curr_dir tmp_dir : Str)
    (spawn : PopenCall → Except Str Proc) (c : Str)
    (args : Option (List Str)) (lib_dir cwd : Option Str) (to_files : Bool)
    (hc : truthy c = true)
    (hlib : truthyOpt lib_dir = false ∨ on_posix = false)
    (htgt : path_exists fs (if truthyOpt lib_dir then lib_dir.getD [] else procCwd) = true) :
    popenEnvs (execute2 fs procCwd environ on_posix on_windows curr_dir tmp_dir
      spawn (some c) args lib_dir cwd none to_files).2 = [none] := by
  have hguard : (truthyOpt lib_dir && on_posix) = false := by
    rcases hlib with h | h <;> simp [h]
  have henv : get_env none lib_dir environ on_posix = [] :=
    get_env_none_empty lib_dir environ on_posix hguard
  have h1 : (!truthyOpt (some c)) = false := by
    simp [truthyOpt, hc]
  unfold execute2
  rw [h1]
  simp only [Bool.false_eq_true, if_false, henv]
  rw [show chdir fs (if truthyOpt lib_dir then lib_dir.getD [] else procCwd)
        = .ok (if truthyOpt lib_dir then lib_dir.getD [] else procCwd) by
      simp [chdir, htgt]]
  simp only [if_pos rfl]
  split
  · cases hres : chdir fs procCwd <;> simp [hres, popenEnvs]
  · cases hres : chdir fs procCwd
    · simp [hres, popenEnvs]
    · cases to_files <;> simp [hres, popenEnvs]

/-- C10 witness at concrete input. -/
theorem execute2_passes_none_env_witness :
    (truthy ("cmd".toList) = true ∧
     truthyOpt (none : Option Str) = false ∧
     path_exists ["/".toList] ("/".toList) = true) ∧
    popenEnvs (execute2 ["/".toList] ("/".toList) [] true false ("/root".toList)
      ("/tmp/cmd-1".toList) (fun _ => .error ("ENOENT".toList)) (some ("cmd".toList))
      none none none none false).2 = [none] :=
  ⟨⟨by decide, rfl, by decide⟩,
    execute2_passes_none_env ["/".toList] ("/".toList) [] true false ("/root".toList)
      ("/tmp/cmd-1".toList) (fun _ => .error ("ENOENT".toList)) ("cmd".toList)
      none none none false (by decide) (Or.inl rfl) (by decide)⟩

/-- C2 counterexample: with a spawn that fails (the executable does not
exist), `execute2` does not return normally with the sentinel 100 — the
spawn error propagates out as an error. -/
theorem execute2_spawn_error_not_100_cex :
    (execute2 ["/".toList] ("/".toList) [] true false ("/root".toList)
      ("/tmp/cmd-1".toList) (fun _ => .error ("FileNotFoundError: nope".toList))
      (some ("nope".toList)) none none none none false).1
      = Except.error ("FileNotFoundError: nope".toList) := by
  rfl

/-- C2 amended: when `Popen` raises (no process handle can be obtained),
the error propagates out of `execute2` — the `try` has no `except` clause
and the internal sentinel 100 is never returned — while the cleanup
`close(proc)` still runs (with no handle) before the error propagates. -/
theorem execute2_spawn_error_propagates (fs : List Str) (procCwd : Str)
    (environ : Dict) (on_posix on_windows : Bool) (curr_dir tmp_dir : Str)
    (spawn : PopenCall → Except Str Proc) (c : Str) (e : Str)
    (args : Option (List Str)) (lib_dir cwd : Option Str) (env : Option Dict)
    (to_files : Bool)
    (hc : truthy c = true)
    (htgt : path_exists fs (if truthyOpt lib_dir then lib_dir.getD [] else procCwd) = true)
    (hcwd : path_exists fs procCwd = true)
    (hs : ∀ call, spawn call = .error e) :
    (execute2 fs procCwd environ on_posix on_windows curr_dir tmp_dir spawn
      (some c) args lib_dir cwd env to_files).1 = .error e ∧
    Effect.closeCall false ∈ (execute2 fs procCwd environ on_posix on_windows
      curr_dir tmp_dir spawn (some c) args lib_dir cwd env to_files).2 := by
  have h1 : (!truthyOpt (some c)) = false := by
    simp [truthyOpt, hc]
  have hres : chdir fs procCwd = .ok procCwd := by
    simp [chdir, hcwd]
  unfold execute2
  rw [h1]
  simp only [Bool.false_eq_true, if_false]
  rw [show chdir fs (if truthyOpt lib_dir then lib_dir.getD [] else procCwd)
        = .ok (if truthyOpt lib_dir then lib_dir.getD [] else procCwd) by
      simp [chdir, htgt]]
  simp only [hs, hres]
  simp

/-- C2 amended witness at concrete input. -/
theorem execute2_spawn_error_propagates_witness :
    (truthy ("nope".toList) = true ∧
     path_exists ["/".toList] ("/".toList) = true) ∧
    ((execute2 ["/".toList] ("/".toList) [] true false ("/root".toList)
        ("/tmp/cmd-1".toList) (fun _ => .error ("FileNotFoundError: nope".toList))
        (some ("nope".toList)) none none none none false).1
        = .error ("FileNotFoundError: nope".toList) ∧
     Effect.closeCall false ∈ (execute2 ["/".toList] ("/".toList) [] true false
        ("/root".toList) ("/tmp/cmd-1".toList)
        (fun _ => .error ("FileNotFoundError: nope".toList))
        (some ("nope".toList)) none none none none false).2) :=
  ⟨⟨by decide, by decide⟩,
    execute2_spawn_error_propagates ["/".toList] ("/".toList) [] true false
      ("/root".toList) ("/tmp/cmd-1".toList)
      (fun _ => .error ("FileNotFoundError: nope".toList)) ("nope".toList)
      ("FileNotFoundError: nope".toList) none none none none false
      (by decide) (by decide) (by decide) (fun _ => rfl)⟩

/-- C4 counterexample: the code strips LEADING whitespace too
(`bytes.strip()` strips both ends): a stdout of `" X"` comes back as `"X"`,
not `" X"` as the claim's "leading content otherwise preserved" requires.
The concrete run also shows exit code 7 and stderr `"Y"` as expected. -/
theorem execute2_strips_leading_cex :
    (execute2 ["/".toList] ("/".toList) [] true false ("/root".toList)
      ("/tmp/cmd-1".toList) (fun _ => .ok ⟨7, [32, 88], [89]⟩)
      (some ("cmd".toList)) none none none none false).1
      = Except.ok (7, "X".toList, "Y".toList) ∧
    ("X".toList : Str) ≠ " X".toList := by
  exact ⟨rfl, by decide⟩

/-- C4 amended: on a successful spawn, with inline output requested the
runner returns the backing files' bytes with leading and trailing
whitespace stripped and decoded into ASCII-safe text (never raising); with
file output requested it returns the two file paths unread. -/
theorem execute2_output_processing (fs : List Str) (procCwd : Str)
    (environ : Dict) (on_posix on_windows : Bool) (curr_dir tmp_dir : Str)
    (p : Proc) (c : Str) (args : Option (List Str)) (lib_dir cwd : Option Str)
    (env : Option Dict) (to_files : Bool)
    (hc : truthy c = true)
    (htgt : path_exists fs (if truthyOpt lib_dir then lib_dir.getD [] else procCwd) = true)
    (hcwd : path_exists fs procCwd = true) :
    (execute2 fs procCwd environ on_posix on_windows curr_dir tmp_dir
      (fun _ => .ok p) (some c) args lib_dir cwd env to_files).1
      = .ok (p.returncode,
          if to_files then (tmp_dir ++ "/stdout".toList, tmp_dir ++ "/stderr".toList)
          else (toascii (pyStrip p.stdoutBytes), toascii (pyStrip p.stderrBytes))) := by
  have h1 : (!truthyOpt (some c)) = false := by
    simp [truthyOpt, hc]
  have hres : chdir fs procCwd = .ok procCwd := by
    simp [chdir, hcwd]
  unfold execute2
  rw [h1]
  simp only [Bool.false_eq_true, if_false]
  rw [show chdir fs (if truthyOpt lib_dir then lib_dir.getD [] else procCwd)
        = .ok (if truthyOpt lib_dir then lib_dir.getD [] else procCwd) by
      simp [chdir, htgt]]
  simp only [hres]
  cases to_files <;> simp

/-- C4 amended witness at concrete input (exit code 7, stdout `" X"`,
stderr `"Y"`, inline output). -/
theorem execute2_output_processing_witness :
    (truthy ("cmd".toList) = true ∧
     path_exists ["/".toList] ("/".toList) = true) ∧
    (execute2 ["/".toList] ("/".toList) [] true false ("/root".toList)
      ("/tmp/cmd-1".toList) (fun _ => .ok ⟨7, [32, 88], [89]⟩)
      (some ("cmd".toList)) none none none none false).1
      = .ok ((7 : Int),
          if false then ("/tmp/cmd-1".toList ++ "/stdout".toList,
                         "/tmp/cmd-1".toList ++ "/stderr".toList)
          else (toascii (pyStrip [32, 88]), toascii (pyStrip [89]))) :=
  ⟨⟨by decide, by decide⟩,
    execute2_output_processing ["/".toList] ("/".toList) [] true false
      ("/root".toList) ("/tmp/cmd-1".toList) ⟨7, [32, 88], [89]⟩ ("cmd".toList)
      none none none none false (by decide) (by decide) (by decide)⟩

end Commoncode
